import Mathlib

/-!
Verification of `src/phi/physics/smoke.py` (PhiFlow smoke solver core).

The repository code under `src/` is a single Python file; its external
collaborators (the array runtime `phi.math`, `StaggeredGrid`, `nd`, the
pressure solver, the world/geometry module) are not part of `src/`.  We
shallowly embed the smoke module over abstract field types `F` (centered
tensor fields, e.g. density, divergence, pressure) and `V` (staggered
vector fields, e.g. velocity), and `D` (domain states).  The collaborator
operations are collected in an `Externals` structure; the smoke code is
translated line by line against those operations.  Scalars (dt, gravity
components, buoyancy factor, integrals) are rationals.

Python failure modes (TypeError from `len(bool)`, AssertionError,
NotImplementedError) are made explicit with `Except PyError`.
-/

namespace PhiFlow

/-- Python exception kinds relevant to `smoke.py`. -/
inductive PyError where
  | typeError
  | assertionError
  | notImplementedError
deriving DecidableEq, Repr

/-- The operations `smoke.py` consumes from its collaborators (`phi.math`,
`StaggeredGrid`, `nd`, the world module, the pressure solver).  `F` is the
type of centered tensor fields, `V` of staggered vector fields, `D` of
domain states. -/
structure Externals (F V D : Type) where
  /-- `velocity.advect(density, dt)` : semi-Lagrangian advection of a centered field. -/
  advectF : V → F → ℚ → F
  /-- `velocity.advect(velocity, dt)` : self-advection of the staggered field. -/
  advectV : V → V → ℚ → V
  /-- `nd.normalize_to(target, source)` : rescale `target` so its total matches `source`. -/
  normalize_to : F → F → F
  /-- Total integral of a centered field (used to state mass conservation). -/
  total : F → ℚ
  /-- `inflow_mask(self.world, self.domain.grid)` : the inflow source field. -/
  inflow_mask : F
  /-- Addition of centered fields (`density + ...`). -/
  fadd : F → F → F
  /-- Scaling a centered field by a scalar (`inflow * self.dt`). -/
  fscale : F → ℚ → F
  /-- `StaggeredGrid.from_scalar(density, vector)` : centered scalar times a
  per-axis vector, laid out as a staggered field. -/
  from_scalar : F → List ℚ → V
  /-- Addition of staggered fields (`velocity + dv`). -/
  vadd : V → V → V
  /-- Subtraction of staggered fields (`velocity -= ...`). -/
  vsub : V → V → V
  /-- `domainstate.with_hard_boundary_conditions(velocity)`. -/
  bc : D → V → V
  /-- `StaggeredGrid.divergence()` on a staggered field. -/
  divergenceOp : V → F
  /-- `input.shape[-1]` : length of the last axis of a centered tensor. -/
  lastAxis : F → ℕ
  /-- `nd.divergence(input, difference=central)` : central-difference divergence
  of raw component data. -/
  centralDiv : F → F
  /-- `StaggeredGrid.gradient(pressure)` : staggered gradient of a centered field. -/
  gradient : F → V
  /-- `pressure_solver.solve(input, domainstate, pressure_guess)` returning
  `(pressure, iteration_count)` (spec section 6: the solver is an opaque
  call that returns a pressure field and an iteration count). -/
  solve : F → D → Option F → F × ℕ
  /-- `phi.math.disassemble(velocity)` : flatten a staggered field into a list of
  component tensors plus a reconstruction function. -/
  vdis : V → List F × (List F → V)

/-- The state of `smoke.py`: an immutable pair of density and velocity
(`SmokeState.__init__`, lines 7-9). -/
structure SmokeState (F V : Type) where
  density : F
  velocity : V
deriving DecidableEq, Repr

/-- `SmokeState.disassemble` (lines 19-21): flattens the velocity through the
collaborator `disassemble`, prepends the density, and returns the list together
with a reconstruction function.  The Python reconstruction lambda indexes
`tensors[0]` and slices `tensors[1:]`; on an empty list `tensors[0]` raises
IndexError, embedded here as `none`. -/
def SmokeState.disassemble {F V D : Type} (E : Externals F V D) (s : SmokeState F V) :
    List F × (List F → Option (SmokeState F V)) :=
  let p := E.vdis s.velocity
  (s.density :: p.1, fun tensors =>
    match tensors with
    | [] => none
    | t0 :: rest => some ⟨t0, p.2 rest⟩)

/-- Python `==` between a list (or tuple) of numbers and an integer: the two
operands have different types, so the comparison is `False`. -/
def pyListEqInt (gs : List ℚ) (n : ℕ) : Bool :=
  false

/-- Python `len` applied to a `bool`: `bool` has no `__len__`, so `len`
raises `TypeError`. -/
def pyLenOfBool (b : Bool) : Except PyError ℕ :=
  Except.error PyError.typeError

/-- The gravity argument to `Smoke.__init__`: either a scalar number or an
explicit tuple/list of per-axis components. -/
inductive GravityArg where
  | scalar (g : ℚ)
  | vector (gs : List ℚ)
deriving DecidableEq, Repr

/-- The gravity-normalization logic of `Smoke.__init__` (lines 31-36):

    if isinstance(gravity, (tuple, list)):
        assert len(gravity == domain.rank)
        self.gravity = np.array(gravity)
    else:
        gravity = [gravity] + ([0] * (domain.rank - 1))
        self.gravity = np.array(gravity)

In the tuple/list branch the code evaluates `gravity == domain.rank` (a list
compared to an integer, hence the boolean `False`) and then applies `len` to
that boolean, which raises `TypeError` before the assert can be checked. -/
def smoke_init_gravity (gravity : GravityArg) (rank : ℕ) : Except PyError (List ℚ) :=
  match gravity with
  | GravityArg.vector gs =>
      match pyLenOfBool (pyListEqInt gs rank) with
      | Except.error err => Except.error err
      | Except.ok n =>
          if n ≠ 0 then Except.ok gs else Except.error PyError.assertionError
  | GravityArg.scalar g => Except.ok (g :: List.replicate (rank - 1) 0)

/-- The engine configuration and mutable diagnostics of the `Smoke` class:
`domain.rank`, `dt`, the normalized gravity vector, `buoyancy_factor`,
`conserve_density`, the cached `domainstate`, and the last-solve diagnostics
`last_pressure` / `last_iter` (unset before the first solve). -/
structure Smoke (F V D : Type) where
  domain_rank : ℕ
  dt : ℚ
  gravity : List ℚ
  buoyancy_factor : ℚ
  conserve_density : Bool
  domainstate : D
  last_pressure : Option F
  last_iter : Option ℕ

/-- `Smoke.inflow` (lines 74-76): adds `inflow_mask * dt` to the density and
leaves the velocity untouched. -/
def Smoke.inflow {F V D : Type} (E : Externals F V D) (e : Smoke F V D)
    (smokestate : SmokeState F V) : SmokeState F V :=
  ⟨E.fadd smokestate.density (E.fscale E.inflow_mask e.dt), smokestate.velocity⟩

/-- `Smoke.buoyancy` (lines 78-80): builds the staggered correction
`StaggeredGrid.from_scalar(density, gravity * buoyancy_factor * (-1) * dt)` and
adds it to the velocity; density unchanged. -/
def Smoke.buoyancy {F V D : Type} (E : Externals F V D) (e : Smoke F V D)
    (smokestate : SmokeState F V) : SmokeState F V :=
  let dv := E.from_scalar smokestate.density
    (e.gravity.map (fun g => g * e.buoyancy_factor * (-1) * e.dt))
  ⟨smokestate.density, E.vadd smokestate.velocity dv⟩

/-- `Smoke.advect` (lines 82-88): semi-Lagrangian advection of density and
velocity along the current velocity; when `conserve_density` is set, the
advected density is renormalized against the pre-advection density. -/
def Smoke.advect {F V D : Type} (E : Externals F V D) (e : Smoke F V D)
    (smokestate : SmokeState F V) : SmokeState F V :=
  let prev_density := smokestate.density
  let density := E.advectF smokestate.velocity smokestate.density e.dt
  let velocity := E.advectV smokestate.velocity smokestate.velocity e.dt
  let density := if e.conserve_density then E.normalize_to density prev_density else density
  ⟨density, velocity⟩

/-- `Smoke.friction` (lines 90-95): reapplies hard boundary conditions to the
velocity (the richer friction model is an unimplemented extension point). -/
def Smoke.friction {F V D : Type} (E : Externals F V D) (e : Smoke F V D)
    (smokestate : SmokeState F V) : SmokeState F V :=
  ⟨smokestate.density, E.bc e.domainstate smokestate.velocity⟩

/-- The argument of `Smoke.solve_pressure`: either a staggered velocity field
or a centered tensor (raw divergence values or raw component data). -/
inductive PressureArg (F V : Type) where
  | staggered (v : V)
  | tensor (t : F)

/-- The input-normalization stage of `Smoke.solve_pressure` (lines 104-107):
two sequential `if`s.  First, a staggered field is replaced by its divergence;
then, whatever `input` now holds, if its last axis length equals the domain
rank it is treated as raw component data and a central-difference divergence
is applied. -/
def pressure_stage {F V D : Type} (E : Externals F V D) (rank : ℕ)
    (input : PressureArg F V) : F :=
  let input1 : F :=
    match input with
    | PressureArg.staggered v => E.divergenceOp v
    | PressureArg.tensor t => t
  if E.lastAxis input1 = rank then E.centralDiv input1 else input1

/-- `Smoke.solve_pressure` (lines 97-111): normalizes the input to a
divergence field, calls the pressure solver, records the diagnostics
`last_pressure` and `last_iter` on the engine, and returns the pressure.
The updated engine is returned alongside the pressure to make the Python
attribute assignments explicit. -/
def Smoke.solve_pressure {F V D : Type} (E : Externals F V D) (e : Smoke F V D)
    (input : PressureArg F V) : F × Smoke F V D :=
  let d := pressure_stage E e.domain_rank input
  let pi := E.solve d e.domainstate none
  (pi.1, { e with last_pressure := some pi.1, last_iter := some pi.2 })

/-- `Smoke.divergence_free` (lines 113-118): apply hard boundary conditions to
the velocity, solve for pressure from that velocity, subtract the
boundary-conditioned pressure gradient, and return a new state with unchanged
density.  The engine with updated diagnostics is returned alongside. -/
def Smoke.divergence_free {F V D : Type} (E : Externals F V D) (e : Smoke F V D)
    (smokestate : SmokeState F V) : SmokeState F V × Smoke F V D :=
  let velocity := E.bc e.domainstate smokestate.velocity
  let pe := Smoke.solve_pressure E e (PressureArg.staggered velocity)
  let gradp := E.gradient pe.1
  let velocity2 := E.vsub velocity (E.bc e.domainstate gradp)
  (⟨smokestate.density, velocity2⟩, pe.2)

/-- Modelled from the spec: `State.__mul__` from `phi/physics/physics.py` is
not under `src/`; per the spec (sections 4.2 and 9), the overloaded sequencing
`state * op` applies the operator to the state, so a chain
`state * op1 * op2 * ...` applies the operators in left-to-right order. -/
def stateMul {F V : Type} (s : SmokeState F V) (f : SmokeState F V → SmokeState F V) :
    SmokeState F V :=
  f s

/-- `Smoke.step` (lines 51-52):

    return smokestate * self.advect * self.inflow * self.buoyancy * self.friction * self.divergence_free

The first four stages are threaded through the overloaded sequencing
(`stateMul`); the final stage `divergence_free` additionally updates the
solve diagnostics on the engine, which is returned alongside. -/
def Smoke.step {F V D : Type} (E : Externals F V D) (e : Smoke F V D)
    (smokestate : SmokeState F V) : SmokeState F V × Smoke F V D :=
  Smoke.divergence_free E e
    (stateMul (stateMul (stateMul (stateMul smokestate (Smoke.advect E e))
      (Smoke.inflow E e)) (Smoke.buoyancy E e)) (Smoke.friction E e))

/-- `Smoke.unserialize_from_dict` (lines 71-72): unconditionally raises
`NotImplementedError`. -/
def Smoke.unserialize_from_dict {F V D : Type} (e : Smoke F V D) :
    Except PyError (Smoke F V D) :=
  Except.error PyError.notImplementedError

/-! Concrete instantiations used by the witness theorems: centered fields are
rationals, staggered fields are lists of rationals, the domain state is trivial. -/

/-- A concrete collaborator instance for witnesses.  `vdis` satisfies the
round-trip contract and `normalize_to` satisfies the total-preservation
contract, as the spec requires of the real collaborators. -/
def testExternals : Externals ℤ (List ℤ) Unit where
  advectF := fun _ f _ => f
  advectV := fun _ w _ => w
  normalize_to := fun _ r => r
  total := fun f => (f : ℚ)
  inflow_mask := 0
  fadd := fun a b => a + b
  fscale := fun f _ => f
  from_scalar := fun f l => List.replicate l.length f
  vadd := fun a b => List.zipWith (fun x y => x + y) a b
  vsub := fun a b => List.zipWith (fun x y => x - y) a b
  bc := fun _ v => v
  divergenceOp := fun v => v.sum
  lastAxis := fun t => t.toNat
  centralDiv := fun t => t / 2
  gradient := fun p => [p, p]
  solve := fun d _ _ => (d, 3)
  vdis := fun v => (v, fun ts => ts)

/-- A concrete engine for witnesses: the defaults of `Smoke.__init__` on a
rank-2 domain, with `conserve_density` enabled. -/
def testSmoke : Smoke ℤ (List ℤ) Unit where
  domain_rank := 2
  dt := 1
  gravity := [-981/100, 0]
  buoyancy_factor := 1/10
  conserve_density := true
  domainstate := ()
  last_pressure := none
  last_iter := none

/-- C1: `Smoke.step` applies the five stages advect, inflow, buoyancy,
friction, divergence_free in exactly that left-to-right order:
`step(s) = divergence_free(friction(buoyancy(inflow(advect(s)))))`.  Each
stage is a total Lean function on `SmokeState` and returns a new state
without modifying its argument. -/
theorem step_is_ordered_pipeline {F V D : Type} (E : Externals F V D) (e : Smoke F V D)
    (s : SmokeState F V) :
    Smoke.step E e s =
      Smoke.divergence_free E e
        (Smoke.friction E e (Smoke.buoyancy E e (Smoke.inflow E e (Smoke.advect E e s)))) :=
  rfl

/-- C2: `divergence_free` keeps the density unchanged, and the returned
velocity is the boundary-conditioned input velocity minus the
boundary-conditioned gradient of the pressure obtained by `solve_pressure`
on that boundary-conditioned velocity. -/
theorem divergence_free_output {F V D : Type} (E : Externals F V D) (e : Smoke F V D)
    (s : SmokeState F V) :
    (Smoke.divergence_free E e s).1.density = s.density ∧
    (Smoke.divergence_free E e s).1.velocity =
      E.vsub (E.bc e.domainstate s.velocity)
        (E.bc e.domainstate (E.gradient
          (Smoke.solve_pressure E e
            (PressureArg.staggered (E.bc e.domainstate s.velocity))).1)) :=
  ⟨rfl, rfl⟩

/-- C3: `disassemble` returns the fields in order
`[density, velocity_axis_0, velocity_axis_1, ...]`, and whenever the
collaborating staggered-field disassembly satisfies its own round trip,
applying the returned reconstruction function to the returned field list
yields the original `SmokeState` field for field. -/
theorem disassemble_round_trip {F V D : Type} (E : Externals F V D) (s : SmokeState F V)
    (h : (E.vdis s.velocity).2 (E.vdis s.velocity).1 = s.velocity) :
    (SmokeState.disassemble E s).1 = s.density :: (E.vdis s.velocity).1 ∧
    (SmokeState.disassemble E s).2 ((SmokeState.disassemble E s).1) = some s := by
  refine ⟨rfl, ?_⟩
  show some (SmokeState.mk s.density ((E.vdis s.velocity).2 (E.vdis s.velocity).1)) = some s
  rw [h]

/-- Witness for C3 at a concrete state. -/
theorem disassemble_round_trip_witness :
    (SmokeState.disassemble testExternals (SmokeState.mk (3 : ℤ) [1, 2])).1 =
        (3 : ℤ) :: (testExternals.vdis [1, 2]).1 ∧
    (SmokeState.disassemble testExternals (SmokeState.mk (3 : ℤ) [1, 2])).2
        ((SmokeState.disassemble testExternals (SmokeState.mk (3 : ℤ) [1, 2])).1) =
      some (SmokeState.mk (3 : ℤ) [1, 2]) :=
  disassemble_round_trip testExternals (SmokeState.mk (3 : ℤ) [1, 2]) rfl

/-- C4: constructing with a scalar gravity `g` on a rank-`r` domain (`r ≥ 1`)
stores the gravity vector `[g, 0, ..., 0]` of length `r`: `g` in axis 0 and
zero in every other axis. -/
theorem gravity_scalar_broadcast (g : ℚ) (r : ℕ) (h : 1 ≤ r) :
    smoke_init_gravity (GravityArg.scalar g) r =
        Except.ok (g :: List.replicate (r - 1) 0) ∧
    (g :: List.replicate (r - 1) 0).length = r := by
  refine ⟨rfl, ?_⟩
  simp only [List.length_cons, List.length_replicate]
  omega

/-- Witness for C4 with the default gravity on a rank-2 domain. -/
theorem gravity_scalar_broadcast_witness :
    smoke_init_gravity (GravityArg.scalar (-981 / 100)) 2 =
        Except.ok ((-981 / 100 : ℚ) :: List.replicate (2 - 1) 0) ∧
    ((-981 / 100 : ℚ) :: List.replicate (2 - 1) 0).length = 2 :=
  gravity_scalar_broadcast (-981 / 100) 2 (by decide)

/-- C5 (code bug evidence): a rank-length explicit gravity vector on a rank-2
domain is not accepted; construction raises `TypeError`, because the length
check computes `len(gravity == domain.rank)`, the length of a boolean. -/
theorem gravity_rank_length_vector_raises :
    smoke_init_gravity (GravityArg.vector [-981 / 100, 0]) 2 =
      Except.error PyError.typeError :=
  rfl

/-- C6: when the collaborating `normalize_to` rescales its target to the
total of its reference (its contract per the spec), `advect` with
`conserve_density = true` returns a density whose total integral equals the
total integral of the pre-advection density; with `conserve_density = false`
the advected density is returned without any rescaling. -/
theorem advect_mass_conservation {F V D : Type} (E : Externals F V D) (e : Smoke F V D)
    (s : SmokeState F V)
    (hnorm : ∀ x r, E.total (E.normalize_to x r) = E.total r) :
    (e.conserve_density = true →
      E.total (Smoke.advect E e s).density = E.total s.density) ∧
    (e.conserve_density = false →
      (Smoke.advect E e s).density = E.advectF s.velocity s.density e.dt) := by
  constructor
  · intro hc
    simp only [Smoke.advect, hc, if_true]
    exact hnorm _ _
  · intro hc
    simp only [Smoke.advect, hc, Bool.false_eq_true, if_false]

/-- Witness for C6 at a concrete state and an engine with density
conservation enabled. -/
theorem advect_mass_conservation_witness :
    testExternals.total (Smoke.advect testExternals testSmoke
        (SmokeState.mk (5 : ℤ) [1, 2])).density =
      testExternals.total (SmokeState.mk (5 : ℤ) [1, 2]).density :=
  (advect_mass_conservation testExternals testSmoke (SmokeState.mk (5 : ℤ) [1, 2])
    (fun _ _ => rfl)).1 rfl

/-- C7: in `solve_pressure`, a staggered velocity input has its divergence
operator called directly (and, when the resulting divergence field's last
axis does not coincide with the domain rank, that divergence field is exactly
what reaches the solver); a tensor input whose last axis length equals the
domain rank is treated as raw component data and gets a central-difference
divergence; and in all cases the solver is invoked on the result of this
normalization stage. -/
theorem solve_pressure_input_normalization {F V D : Type} (E : Externals F V D)
    (e : Smoke F V D) :
    (∀ v, E.lastAxis (E.divergenceOp v) ≠ e.domain_rank →
      (Smoke.solve_pressure E e (PressureArg.staggered v)).1 =
        (E.solve (E.divergenceOp v) e.domainstate none).1) ∧
    (∀ t, E.lastAxis t = e.domain_rank →
      (Smoke.solve_pressure E e (PressureArg.tensor t)).1 =
        (E.solve (E.centralDiv t) e.domainstate none).1) ∧
    (∀ input, (Smoke.solve_pressure E e input).1 =
      (E.solve (pressure_stage E e.domain_rank input) e.domainstate none).1) := by
  refine ⟨fun v hv => ?_, fun t ht => ?_, fun input => rfl⟩
  · simp only [Smoke.solve_pressure, pressure_stage]
    rw [if_neg hv]
  · simp only [Smoke.solve_pressure, pressure_stage]
    rw [if_pos ht]

/-- Witness for C7 on concrete staggered and tensor inputs. -/
theorem solve_pressure_input_normalization_witness :
    ((Smoke.solve_pressure testExternals testSmoke (PressureArg.staggered [5])).1 =
      (testExternals.solve (testExternals.divergenceOp [5]) testSmoke.domainstate none).1) ∧
    ((Smoke.solve_pressure testExternals testSmoke (PressureArg.tensor 2)).1 =
      (testExternals.solve (testExternals.centralDiv 2) testSmoke.domainstate none).1) :=
  ⟨(solve_pressure_input_normalization testExternals testSmoke).1 [5] (by decide),
   (solve_pressure_input_normalization testExternals testSmoke).2.1 2 (by decide)⟩

/-- C8: `unserialize_from_dict` always fails with `NotImplementedError`; it
never returns a reconstructed engine. -/
theorem unserialize_from_dict_always_fails {F V D : Type} (e : Smoke F V D) :
    Smoke.unserialize_from_dict e = Except.error PyError.notImplementedError :=
  rfl

/-- C9: after every `solve_pressure` call, the engine's `last_pressure` and
`last_iter` diagnostics hold exactly the pressure and iteration count
returned by the solver on this attempt. -/
theorem solve_pressure_records_diagnostics {F V D : Type} (E : Externals F V D)
    (e : Smoke F V D) (input : PressureArg F V) :
    ((Smoke.solve_pressure E e input).2).last_pressure =
        some (E.solve (pressure_stage E e.domain_rank input) e.domainstate none).1 ∧
    ((Smoke.solve_pressure E e input).2).last_iter =
        some (E.solve (pressure_stage E e.domain_rank input) e.domainstate none).2 :=
  ⟨rfl, rfl⟩

/-- C10: constructing with any tuple/list gravity argument, of any length and
for any domain rank, raises `TypeError`: the check `len(gravity == domain.rank)`
applies `len` to the boolean `gravity == domain.rank` instead of comparing the
list's length with the rank. -/
theorem gravity_vector_always_type_error (gs : List ℚ) (r : ℕ) :
    smoke_init_gravity (GravityArg.vector gs) r = Except.error PyError.typeError :=
  rfl

end PhiFlow
